import Mathlib

/-!
# Verification of the Insight cluster-context aggregator

A shallow embedding of `src/insight.py` (class `Insight`, method
`get_cluster_context`).  Python dictionaries are modelled as association
lists of string keys and JSON-like values, the Kubernetes API objects as
structures carrying exactly the attributes the source reads (optional
attributes as `Option`), each per-kind API list call as an
`Except String (List _)` value (`.error msg` models the call raising an
exception whose `str(e)` is `msg`), and the single `try`/`except` block of
`get_cluster_context` as an `Except` computation whose error value carries
the context as it stood when the exception was raised.  Timestamps are
modelled as naturals ordered like datetimes, with `datetime.min` as `0`
and `isoformat` as an abstract injection into strings.
-/

/-- A JSON-like value, the codomain of the snapshot document. -/
inductive Val where
  | null : Val
  | str : String → Val
  | nat : Nat → Val
  | int : Int → Val
  | bool : Bool → Val
  | list : List Val → Val
  | dict : List (String × Val) → Val

/-- A Python dict with string keys, as an insertion-ordered association list. -/
abbrev Ctx := List (String × Val)

/-- `Optional[str]` attribute rendered into the document (`None` becomes JSON null). -/
def optStrVal : Option String → Val
  | none => Val.null
  | some s => Val.str s

/-- `Optional[int]` attribute rendered into the document. -/
def optNatVal : Option Nat → Val
  | none => Val.null
  | some n => Val.nat n

/-- Timestamps are modelled as `Nat`; `isoformat` is an abstract injection into strings. -/
def isoformat (t : Nat) : String := toString t

/-- `x.isoformat() if x else None`. -/
def optIsoVal : Option Nat → Val
  | none => Val.null
  | some t => Val.str (isoformat t)

/-- A Python `dict[str, str]` rendered into the document. -/
def strDictVal (l : List (String × String)) : Val :=
  Val.dict (l.map fun p => (p.1, Val.str p.2))

/-- Python `d.get(k)` on a `dict[str, str]` (`None` when the key is missing). -/
def pyDictGet (d : List (String × String)) (k : String) : Option String :=
  (d.find? fun p => p.1 == k).map Prod.snd


/-- Append an element to a `Val.list` (Python `list.append` on a dict entry). -/
def pushVal : Val → Val → Val
  | Val.list l, v => Val.list (l ++ [v])
  | w, _ => w

/-- `ctx[k].append(v)`: append `v` to the list stored at key `k` (identity elsewhere). -/
def dictAppend : Ctx → String → Val → Ctx
  | [], _, _ => []
  | p :: rest, k, v => (if p.1 = k then (p.1, pushVal p.2 v) else p) :: dictAppend rest k v

/-- Dictionary lookup, `ctx.get(k)`. -/
def dictGet : Ctx → String → Option Val
  | [], _ => none
  | p :: rest, k => if p.1 = k then some p.2 else dictGet rest k

/-- Whether the dictionary has an entry for key `k`. -/
def dictHasKey : Ctx → String → Bool
  | [], _ => false
  | p :: rest, k => p.1 = k || dictHasKey rest k

/-- Overwrite the value at every entry whose key is `k`, keeping positions. -/
def dictOverwrite : Ctx → String → Val → Ctx
  | [], _, _ => []
  | p :: rest, k, v => (if p.1 = k then (p.1, v) else p) :: dictOverwrite rest k v

/-- Python dict assignment `ctx[k] = v`: overwrite in place if the key exists
(keeping its position), otherwise append the new entry at the end. -/
def dictSet (ctx : Ctx) (k : String) (v : Val) : Ctx :=
  if dictHasKey ctx k then dictOverwrite ctx k v else ctx ++ [(k, v)]

theorem dictAppend_map_fst (ctx : Ctx) (k : String) (v : Val) :
    (dictAppend ctx k v).map Prod.fst = ctx.map Prod.fst := by
  induction ctx with
  | nil => rfl
  | cons p rest ih =>
    by_cases h : p.1 = k <;> simp [dictAppend, h, ih]

theorem dictGet_dictAppend_ne (ctx : Ctx) {k k' : String} (v : Val) (h : k' ≠ k) :
    dictGet (dictAppend ctx k v) k' = dictGet ctx k' := by
  induction ctx with
  | nil => rfl
  | cons p rest ih =>
    by_cases h1 : p.1 = k
    · have h2 : p.1 ≠ k' := fun hc => h (hc ▸ h1 ▸ rfl)
      simp [dictAppend, dictGet, h1, h2, Ne.symm h, ih]
    · by_cases h2 : p.1 = k' <;> simp [dictAppend, dictGet, h1, h2, h, ih]

theorem dictGet_dictAppend_self (ctx : Ctx) {k : String} {l : List Val} (v : Val)
    (h : dictGet ctx k = some (Val.list l)) :
    dictGet (dictAppend ctx k v) k = some (Val.list (l ++ [v])) := by
  induction ctx with
  | nil => simp [dictGet] at h
  | cons p rest ih =>
    by_cases h1 : p.1 = k
    · simp [dictGet, h1] at h
      simp [dictAppend, dictGet, h1, h, pushVal]
    · simp [dictGet, h1] at h
      simp [dictAppend, dictGet, h1, ih h]

theorem dictGet_eq_none_of_not_mem (ctx : Ctx) {k : String}
    (h : k ∉ ctx.map Prod.fst) : dictGet ctx k = none := by
  induction ctx with
  | nil => rfl
  | cons p rest ih =>
    simp only [List.map_cons, List.mem_cons, not_or] at h
    have h1 : p.1 ≠ k := fun hc => h.1 hc.symm
    simp [dictGet, h1, ih h.2]

theorem dictHasKey_eq_false_of_not_mem (ctx : Ctx) {k : String}
    (h : k ∉ ctx.map Prod.fst) : dictHasKey ctx k = false := by
  induction ctx with
  | nil => rfl
  | cons p rest ih =>
    simp only [List.map_cons, List.mem_cons, not_or] at h
    have h1 : p.1 ≠ k := fun hc => h.1 hc.symm
    simp [dictHasKey, h1, ih h.2]

theorem dictGet_dictOverwrite_self (ctx : Ctx) {k : String} (v : Val)
    (h : dictHasKey ctx k = true) :
    dictGet (dictOverwrite ctx k v) k = some v := by
  induction ctx with
  | nil => simp [dictHasKey] at h
  | cons p rest ih =>
    by_cases h1 : p.1 = k
    · simp [dictOverwrite, dictGet, h1]
    · simp [dictHasKey, h1] at h
      simp [dictOverwrite, dictGet, h1, ih h]

theorem dictGet_dictSet_self (ctx : Ctx) (k : String) (v : Val) :
    dictGet (dictSet ctx k v) k = some v := by
  unfold dictSet
  by_cases hk : dictHasKey ctx k = true
  · simp [hk, dictGet_dictOverwrite_self ctx v hk]
  · simp only [Bool.not_eq_true] at hk
    simp only [hk, Bool.false_eq_true, if_false]
    induction ctx with
    | nil => simp [dictGet]
    | cons p rest ih =>
      simp only [dictHasKey, Bool.or_eq_false_iff] at hk
      have h1 : p.1 ≠ k := by
        intro hc
        have := hk.1
        simp [hc] at this
      simp [dictGet, h1, ih hk.2]

theorem dictGet_dictSet_ne (ctx : Ctx) {k k' : String} (v : Val) (h : k' ≠ k) :
    dictGet (dictSet ctx k v) k' = dictGet ctx k' := by
  unfold dictSet
  by_cases hk : dictHasKey ctx k = true
  · simp only [hk, if_true]
    induction ctx with
    | nil => rfl
    | cons p rest ih =>
      by_cases h1 : p.1 = k
      · have h2 : p.1 ≠ k' := fun hc => h (hc ▸ h1 ▸ rfl)
        by_cases hr : dictHasKey rest k = true
        · simp [dictOverwrite, dictGet, h1, h2, Ne.symm h, ih hr]
        · -- overwrite of the tail reaches no entry with key k
          have : ∀ (r : Ctx), dictHasKey r k = false →
              dictGet (dictOverwrite r k v) k' = dictGet r k' := by
            intro r hr0
            induction r with
            | nil => rfl
            | cons q qs ihq =>
              simp only [dictHasKey, Bool.or_eq_false_iff] at hr0
              have hq : q.1 ≠ k := by
                intro hc
                have := hr0.1
                simp [hc] at this
              by_cases hq2 : q.1 = k' <;>
                simp [dictOverwrite, dictGet, hq, hq2, h, ihq hr0.2]
          simp only [Bool.not_eq_true] at hr
          simp [dictOverwrite, dictGet, h1, h2, Ne.symm h, this rest hr]
      · by_cases h2 : p.1 = k'
        · simp [dictOverwrite, dictGet, h1, h2, h]
        · simp only [dictHasKey, h1, decide_eq_true_eq, false_or] at hk
          simp at hk
          simp [dictOverwrite, dictGet, h1, h2, ih hk]
  · simp only [Bool.not_eq_true] at hk
    simp only [hk, Bool.false_eq_true, if_false]
    induction ctx with
    | nil => simp [dictGet, h.symm]
    | cons p rest ih =>
      simp only [dictHasKey, Bool.or_eq_false_iff] at hk
      by_cases h2 : p.1 = k' <;> simp [dictGet, h2, ih hk.2]

theorem dictOverwrite_map_fst (ctx : Ctx) (k : String) (v : Val) :
    (dictOverwrite ctx k v).map Prod.fst = ctx.map Prod.fst := by
  induction ctx with
  | nil => rfl
  | cons p rest ih =>
    by_cases h : p.1 = k <;> simp [dictOverwrite, h, ih]

theorem dictSet_map_fst_of_not_mem (ctx : Ctx) {k : String} (v : Val)
    (h : k ∉ ctx.map Prod.fst) :
    (dictSet ctx k v).map Prod.fst = ctx.map Prod.fst ++ [k] := by
  unfold dictSet
  simp [dictHasKey_eq_false_of_not_mem ctx h]

/-! ## Raw Kubernetes API objects

One structure per resource kind, carrying exactly the attributes that
`get_cluster_context` reads.  Attributes that the Python client may return
as `None` are `Option`-typed; doc comments give the attribute path in the
raw object. -/

/-- An entry of `node.status.conditions`. -/
structure NodeCondition where
  type : String
  status : String

/-- A node: `metadata.name`, `status.conditions`, `status.capacity`. -/
structure RawNode where
  name : String
  conditions : Option (List NodeCondition)
  capacity : Option (List (String × String))

/-- An entry of `container.ports`. -/
structure ContainerPort where
  container_port : Nat
  protocol : Option String

/-- `container.resources` (both sub-dicts optional). -/
structure ResourceReqs where
  requests : Option (List (String × String))
  limits : Option (List (String × String))

/-- An entry of `container.volume_mounts`. -/
structure VolumeMount where
  name : String
  mount_path : String

/-- An entry of `pod.spec.containers`. -/
structure RawContainer where
  name : String
  image : String
  ports : Option (List ContainerPort)
  resources : Option ResourceReqs
  env : Option (List String)
  volume_mounts : Option (List VolumeMount)

/-- `state.running`. -/
structure StateRunning where
  started_at : Option Nat

/-- `state.waiting`. -/
structure StateWaiting where
  reason : Option String
  message : Option String

/-- `state.terminated`. -/
structure StateTerminated where
  reason : Option String
  exit_code : Int
  finished_at : Option Nat

/-- `status.state` / `status.last_state`: at most one of the three is set. -/
structure ContainerState where
  running : Option StateRunning
  waiting : Option StateWaiting
  terminated : Option StateTerminated

/-- An entry of `pod.status.container_statuses`. -/
structure RawContainerStatus where
  name : String
  ready : Bool
  restart_count : Nat
  state : ContainerState
  last_state : Option ContainerState

/-- An entry of `pod.status.conditions`. -/
structure PodCondition where
  type : String
  status : String
  reason : Option String
  message : Option String
  last_transition_time : Option Nat

/-- `volume.config_map`. -/
structure VolCM where
  name : String

/-- `volume.secret`. -/
structure VolSecret where
  secret_name : String

/-- `volume.persistent_volume_claim`. -/
structure VolPVC where
  claim_name : String

/-- `volume.host_path`. -/
structure VolHostPath where
  path : String

/-- An entry of `pod.spec.volumes`; each source field may be absent. -/
structure RawVolume where
  name : String
  config_map : Option VolCM
  secret : Option VolSecret
  persistent_volume_claim : Option VolPVC
  empty_dir : Option Unit
  host_path : Option VolHostPath

/-- `pod.metadata`. -/
structure PodMeta where
  name : String
  creation_timestamp : Option Nat
  labels : Option (List (String × String))
  annotations : Option (List (String × String))

/-- `pod.spec`. -/
structure PodSpec where
  containers : List RawContainer
  volumes : Option (List RawVolume)
  node_name : Option String
  service_account_name : Option String
  restart_policy : Option String
  dns_policy : Option String

/-- `pod.status`. -/
structure PodStatus where
  phase : Option String
  container_statuses : Option (List RawContainerStatus)
  conditions : Option (List PodCondition)
  pod_ip : Option String
  host_ip : Option String
  qos_class : Option String

/-- A pod. -/
structure RawPod where
  metadata : PodMeta
  spec : PodSpec
  status : PodStatus

/-- A deployment: `metadata.name`, `spec.replicas`, `status.ready_replicas`,
`status.available_replicas`. -/
structure RawDeployment where
  name : String
  replicas : Option Nat
  ready_replicas : Option Nat
  available_replicas : Option Nat

/-- A service: `metadata.name`, `spec.type`, `spec.cluster_ip`. -/
structure RawService where
  name : String
  type : Option String
  cluster_ip : Option String

/-- `event.involved_object`. -/
structure InvolvedObject where
  kind : String
  name : String

/-- An event: `type`, `reason`, `message`, `involved_object`,
`metadata.creation_timestamp`. -/
structure RawEvent where
  type : Option String
  reason : Option String
  message : Option String
  involved_object : InvolvedObject
  creation_timestamp : Option Nat

/-- A persistent volume: `metadata.name`, `spec.capacity`, `spec.access_modes`,
`status.phase`, `spec.persistent_volume_reclaim_policy`, `spec.storage_class_name`. -/
structure RawPV where
  name : String
  capacity : Option (List (String × String))
  access_modes : Option (List String)
  phase : Option String
  persistent_volume_reclaim_policy : Option String
  storage_class_name : Option String

/-- A persistent volume claim: `metadata.name`, `status.phase`, `status.capacity`,
`spec.access_modes`, `spec.storage_class_name`, `spec.volume_name`. -/
structure RawPVC where
  name : String
  phase : Option String
  capacity : Option (List (String × String))
  access_modes : Option (List String)
  storage_class_name : Option String
  volume_name : Option String

/-- A config map: `metadata.name`, `data`, `binary_data`. -/
structure RawConfigMap where
  name : String
  data : Option (List (String × String))
  binary_data : Option (List (String × String))

/-- A secret: `metadata.name`, `type`, `data`. -/
structure RawSecret where
  name : String
  type : Option String
  data : Option (List (String × String))

/-- An entry of `ingress.spec.rules`. -/
structure IngressRule where
  host : Option String

/-- An ingress: `metadata.name`, `spec.rules`, `spec.tls`, `spec.ingress_class_name`. -/
structure RawIngress where
  name : String
  rules : Option (List IngressRule)
  tls : Option (List Unit)
  ingress_class_name : Option String

/-- An entry of `metadata.owner_references`. -/
structure OwnerRef where
  name : String

/-- A replica set: `metadata.name`, `spec.replicas`, `status.ready_replicas`,
`status.available_replicas`, `metadata.owner_references`. -/
structure RawReplicaSet where
  name : String
  replicas : Option Nat
  ready_replicas : Option Nat
  available_replicas : Option Nat
  owner_references : Option (List OwnerRef)

/-- A daemon set: `metadata.name` and four `status` counters. -/
structure RawDaemonSet where
  name : String
  desired_number_scheduled : Option Nat
  current_number_scheduled : Option Nat
  number_ready : Option Nat
  number_available : Option Nat

/-- A stateful set: `metadata.name`, `spec.replicas` and three `status` counters. -/
structure RawStatefulSet where
  name : String
  replicas : Option Nat
  ready_replicas : Option Nat
  current_replicas : Option Nat
  updated_replicas : Option Nat

/-! ## Resource extractors

One definition per `# Get <Kind>` block of `get_cluster_context`, producing
the per-resource record appended to the corresponding snapshot section.
Record fields appear in the order the Python dict literal writes them. -/

/-- Node extraction.  The source iterates `node.status.conditions` (twice) and
calls `.get` on `node.status.capacity` without a null guard, so an absent
`conditions` raises a `TypeError` and an absent `capacity` an
`AttributeError`; the `status` entry (which iterates `conditions`) is
evaluated before `cpu_capacity` (which reads `capacity`). -/
def extractNode (n : RawNode) : Except String Val :=
  match n.conditions with
  | none => Except.error "TypeError: NoneType object is not iterable"
  | some conds =>
    match n.capacity with
    | none => Except.error "AttributeError: NoneType object has no attribute get"
    | some cap =>
      Except.ok (Val.dict
        [("name", Val.str n.name),
         ("status", Val.str (if conds.any fun c => c.type == "Ready" && c.status == "True"
                             then "Ready" else "NotReady")),
         ("cpu_capacity", optStrVal (pyDictGet cap "cpu")),
         ("memory_capacity", optStrVal (pyDictGet cap "memory")),
         ("conditions", Val.list (conds.map fun c =>
            Val.dict [("type", Val.str c.type), ("status", Val.str c.status)]))])

/-- `container.resources.requests if container.resources and container.resources.requests else {}`
(the `limits` twin is analogous). -/
def resourcesPart (r : Option ResourceReqs) (f : ResourceReqs → Option (List (String × String))) :
    List (String × String) :=
  match r with
  | none => []
  | some rr => (f rr).getD []

/-- Per-container detail record (`container_info`). -/
def extractContainer (c : RawContainer) : Val :=
  Val.dict
    [("name", Val.str c.name),
     ("image", Val.str c.image),
     ("ports", Val.list ((c.ports.getD []).map fun p =>
        Val.dict [("container_port", Val.nat p.container_port),
                  ("protocol", optStrVal p.protocol)])),
     ("resources", Val.dict
        [("requests", strDictVal (resourcesPart c.resources ResourceReqs.requests)),
         ("limits", strDictVal (resourcesPart c.resources ResourceReqs.limits))]),
     ("env_vars", Val.nat (c.env.getD []).length),
     ("volume_mounts", Val.list ((c.volume_mounts.getD []).map fun vm =>
        Val.dict [("name", Val.str vm.name), ("mount_path", Val.str vm.mount_path)]))]

/-- The `if status.state.running: ... elif waiting ... elif terminated ...`
chain; an empty dict when none of the three is set. -/
def extractState (s : ContainerState) : Val :=
  match s.running with
  | some r => Val.dict [("status", Val.str "running"), ("started_at", optIsoVal r.started_at)]
  | none =>
    match s.waiting with
    | some w => Val.dict [("status", Val.str "waiting"), ("reason", optStrVal w.reason),
                          ("message", optStrVal w.message)]
    | none =>
      match s.terminated with
      | some t => Val.dict [("status", Val.str "terminated"), ("reason", optStrVal t.reason),
                            ("exit_code", Val.int t.exit_code),
                            ("finished_at", optIsoVal t.finished_at)]
      | none => Val.dict []

/-- `if status.last_state and status.last_state.terminated: ...`. -/
def extractLastState : Option ContainerState → Val
  | none => Val.dict []
  | some ls =>
    match ls.terminated with
    | none => Val.dict []
    | some t => Val.dict [("status", Val.str "terminated"), ("reason", optStrVal t.reason),
                          ("exit_code", Val.int t.exit_code),
                          ("finished_at", optIsoVal t.finished_at)]

/-- Per-container status record (`status_info`). -/
def extractContainerStatus (s : RawContainerStatus) : Val :=
  Val.dict
    [("name", Val.str s.name),
     ("ready", Val.bool s.ready),
     ("restart_count", Val.nat s.restart_count),
     ("state", extractState s.state),
     ("last_state", extractLastState s.last_state)]

/-- Pod condition record (`condition_info`). -/
def extractPodCondition (c : PodCondition) : Val :=
  Val.dict
    [("type", Val.str c.type),
     ("status", Val.str c.status),
     ("reason", optStrVal c.reason),
     ("message", optStrVal c.message),
     ("last_transition_time", optIsoVal c.last_transition_time)]

/-- Pod volume record (`volume_info`): the `if volume.config_map: ... elif ...`
chain tests the five sources in order and takes the first one present;
a reassignment of `type` keeps its dict position, the extra name key is
appended after it. -/
def volFields (v : RawVolume) : Ctx :=
  match v.config_map with
  | some cm => [("name", Val.str v.name), ("type", Val.str "configMap"),
                ("config_map_name", Val.str cm.name)]
  | none =>
    match v.secret with
    | some s => [("name", Val.str v.name), ("type", Val.str "secret"),
                 ("secret_name", Val.str s.secret_name)]
    | none =>
      match v.persistent_volume_claim with
      | some pvc => [("name", Val.str v.name), ("type", Val.str "persistentVolumeClaim"),
                     ("pvc_name", Val.str pvc.claim_name)]
      | none =>
        match v.empty_dir with
        | some _ => [("name", Val.str v.name), ("type", Val.str "emptyDir")]
        | none =>
          match v.host_path with
          | some hp => [("name", Val.str v.name), ("type", Val.str "hostPath"),
                        ("host_path", Val.str hp.path)]
          | none => [("name", Val.str v.name), ("type", Val.str "unknown")]

/-- Pod volume record as a value. -/
def extractVolume (v : RawVolume) : Val := Val.dict (volFields v)

/-- The full pod record (`pod_info`), fields in source order. -/
def podFields (p : RawPod) : Ctx :=
  [("name", Val.str p.metadata.name),
   ("status", optStrVal p.status.phase),
   ("ready", Val.nat (((p.status.container_statuses.getD []).filter fun c => c.ready).length)),
   ("total_containers", Val.nat p.spec.containers.length),
   ("restart_count", Val.nat (((p.status.container_statuses.getD []).map fun c =>
      c.restart_count).sum)),
   ("node", optStrVal p.spec.node_name),
   ("created", optIsoVal p.metadata.creation_timestamp),
   ("labels", strDictVal (p.metadata.labels.getD [])),
   ("annotations", strDictVal ((p.metadata.annotations.getD []).filter fun kv =>
      !(kv.1.startsWith "kubectl.kubernetes.io"))),
   ("service_account", optStrVal p.spec.service_account_name),
   ("restart_policy", optStrVal p.spec.restart_policy),
   ("dns_policy", optStrVal p.spec.dns_policy),
   ("pod_ip", optStrVal p.status.pod_ip),
   ("host_ip", optStrVal p.status.host_ip),
   ("qos_class", optStrVal p.status.qos_class),
   ("containers", Val.list (p.spec.containers.map extractContainer)),
   ("container_statuses", Val.list ((p.status.container_statuses.getD []).map
      extractContainerStatus)),
   ("conditions", Val.list ((p.status.conditions.getD []).map extractPodCondition)),
   ("volumes", Val.list ((p.spec.volumes.getD []).map extractVolume))]

/-- Pod extraction (total: every optional attribute the source reads from a
pod is null-guarded with `or`-defaults or an `if`). -/
def extractPod (p : RawPod) : Val := Val.dict (podFields p)

/-- Deployment record (`deployment_info`); `spec.replicas` is written raw,
the two status counters default to 0 via `or 0`. -/
def extractDeployment (d : RawDeployment) : Val :=
  Val.dict
    [("name", Val.str d.name),
     ("replicas", optNatVal d.replicas),
     ("ready_replicas", Val.nat (d.ready_replicas.getD 0)),
     ("available_replicas", Val.nat (d.available_replicas.getD 0))]

/-- Service record (`service_info`). -/
def extractService (s : RawService) : Val :=
  Val.dict
    [("name", Val.str s.name),
     ("type", optStrVal s.type),
     ("cluster_ip", optStrVal s.cluster_ip)]

/-- Sort key for events: `x.metadata.creation_timestamp or datetime.min`,
with `datetime.min` modelled as `0`. -/
def eventKey (e : RawEvent) : Nat := e.creation_timestamp.getD 0

/-- The descending-key order `sorted(..., reverse=True)` sorts by: `a` may
stand before `b` when `key b ≤ key a`. -/
def eventGE (a b : RawEvent) : Prop := eventKey b ≤ eventKey a

instance : DecidableRel eventGE := fun a b => Nat.decLe (eventKey b) (eventKey a)

instance : IsTotal RawEvent eventGE :=
  ⟨fun a b => (Nat.le_total (eventKey b) (eventKey a)).imp id id⟩

instance : IsTrans RawEvent eventGE :=
  ⟨fun _ _ _ hab hbc => Nat.le_trans hbc hab⟩

/-- `sorted(events.items, key=..., reverse=True)`: Python `sorted` is a stable
sort; with `reverse=True` it orders by descending key with ties keeping list
order, which is exactly stable insertion sort under `eventGE` (a stable sort
under a fixed total preorder is unique). -/
def sortEventsDesc (evs : List RawEvent) : List RawEvent :=
  evs.insertionSort eventGE

/-- `sorted(...)[:5]`: the five most recent events. -/
def recentEvents (evs : List RawEvent) : List RawEvent :=
  (sortEventsDesc evs).take 5

/-- Compact event record (`event_info`). -/
def extractEvent (e : RawEvent) : Val :=
  Val.dict
    [("type", optStrVal e.type),
     ("reason", optStrVal e.reason),
     ("message", optStrVal e.message),
     ("object", Val.str (e.involved_object.kind ++ "/" ++ e.involved_object.name))]

/-- Persistent volume record (`pv_info`);
`pv.spec.capacity.get("storage") if pv.spec.capacity else None`. -/
def extractPV (pv : RawPV) : Val :=
  Val.dict
    [("name", Val.str pv.name),
     ("capacity", match pv.capacity with
                  | none => Val.null
                  | some d => optStrVal (pyDictGet d "storage")),
     ("access_modes", Val.list ((pv.access_modes.getD []).map Val.str)),
     ("status", optStrVal pv.phase),
     ("reclaim_policy", optStrVal pv.persistent_volume_reclaim_policy),
     ("storage_class", optStrVal pv.storage_class_name)]

/-- Persistent volume claim record (`pvc_info`). -/
def extractPVC (pvc : RawPVC) : Val :=
  Val.dict
    [("name", Val.str pvc.name),
     ("status", optStrVal pvc.phase),
     ("capacity", match pvc.capacity with
                  | none => Val.null
                  | some d => optStrVal (pyDictGet d "storage")),
     ("access_modes", Val.list ((pvc.access_modes.getD []).map Val.str)),
     ("storage_class", optStrVal pvc.storage_class_name),
     ("volume_name", optStrVal pvc.volume_name)]

/-- `list(cm.data.keys()) if cm.data else []`: both `None` and the empty dict
are falsy and give `[]`, which coincides with taking the keys of the
default-empty dict. -/
def pyKeys (d : Option (List (String × String))) : List String :=
  (d.getD []).map Prod.fst

/-- Config map record (`cm_info`): key lists only, no values. -/
def extractConfigMap (cm : RawConfigMap) : Val :=
  Val.dict
    [("name", Val.str cm.name),
     ("data_keys", Val.list ((pyKeys cm.data).map Val.str)),
     ("binary_data_keys", Val.list ((pyKeys cm.binary_data).map Val.str))]

/-- Secret record (`secret_info`): name, type and key list only, no values. -/
def extractSecret (s : RawSecret) : Val :=
  Val.dict
    [("name", Val.str s.name),
     ("type", optStrVal s.type),
     ("data_keys", Val.list ((pyKeys s.data).map Val.str))]

/-- Ingress record (`ingress_info`); the hosts comprehension keeps only rules
whose `host` is present and truthy (the empty string is falsy). -/
def extractIngress (i : RawIngress) : Val :=
  Val.dict
    [("name", Val.str i.name),
     ("hosts", Val.list (((i.rules.getD []).filterMap fun r =>
        match r.host with
        | some h => if h = "" then none else some h
        | none => none).map Val.str)),
     ("tls", Val.bool (decide ((i.tls.getD []).length > 0))),
     ("class", optStrVal i.ingress_class_name)]

/-- Replica set record (`rs_info`);
`owner = rs.metadata.owner_references[0].name if rs.metadata.owner_references else None`
(both `None` and the empty list are falsy). -/
def rsFields (rs : RawReplicaSet) : Ctx :=
  [("name", Val.str rs.name),
   ("replicas", optNatVal rs.replicas),
   ("ready_replicas", Val.nat (rs.ready_replicas.getD 0)),
   ("available_replicas", Val.nat (rs.available_replicas.getD 0)),
   ("owner", match rs.owner_references with
             | some (r :: _) => Val.str r.name
             | _ => Val.null)]

/-- Replica set record as a value. -/
def extractReplicaSet (rs : RawReplicaSet) : Val := Val.dict (rsFields rs)

/-- Daemon set record (`ds_info`). -/
def extractDaemonSet (ds : RawDaemonSet) : Val :=
  Val.dict
    [("name", Val.str ds.name),
     ("desired", Val.nat (ds.desired_number_scheduled.getD 0)),
     ("current", Val.nat (ds.current_number_scheduled.getD 0)),
     ("ready", Val.nat (ds.number_ready.getD 0)),
     ("available", Val.nat (ds.number_available.getD 0))]

/-- Stateful set record (`ss_info`); `spec.replicas` is written raw. -/
def extractStatefulSet (ss : RawStatefulSet) : Val :=
  Val.dict
    [("name", Val.str ss.name),
     ("replicas", optNatVal ss.replicas),
     ("ready_replicas", Val.nat (ss.ready_replicas.getD 0)),
     ("current_replicas", Val.nat (ss.current_replicas.getD 0)),
     ("updated_replicas", Val.nat (ss.updated_replicas.getD 0))]

/-! ## The context aggregator

`get_cluster_context` initializes the context dict with a fixed key set,
then runs thirteen list-and-extract blocks inside one `try`; any exception
raised in that region (a list call failing, or node extraction failing)
jumps to the single `except Exception as e: context["error"] = str(e)`.
Only the Ingress block has its own inner `try`/`except Exception: pass`.

A step is `Ctx → Except (String × Ctx) Ctx`: `.ok ctx` is normal
completion, `.error (msg, ctx)` an exception with message `msg` raised
while the context stood at `ctx`. -/

/-- The cluster as seen through the API client: the outcome of each of the
thirteen list calls the source makes, in source order. -/
structure Cluster where
  nodes : Except String (List RawNode)
  pods : Except String (List RawPod)
  deployments : Except String (List RawDeployment)
  services : Except String (List RawService)
  events : Except String (List RawEvent)
  persistent_volumes : Except String (List RawPV)
  persistent_volume_claims : Except String (List RawPVC)
  config_maps : Except String (List RawConfigMap)
  secrets : Except String (List RawSecret)
  ingresses : Except String (List RawIngress)
  replica_sets : Except String (List RawReplicaSet)
  daemon_sets : Except String (List RawDaemonSet)
  stateful_sets : Except String (List RawStatefulSet)

/-- `for item in items: context[key].append(extract(item))`, where extraction
itself may raise: on a raised extraction the items appended so far stay in
the context (the list is mutated in place). -/
def appendLoop (key : String) (extract : α → Except String Val) :
    List α → Ctx → Except (String × Ctx) Ctx
  | [], ctx => Except.ok ctx
  | a :: rest, ctx =>
    match extract a with
    | Except.error e => Except.error (e, ctx)
    | Except.ok v => appendLoop key extract rest (dictAppend ctx key v)

/-- One `# Get <Kind>` block: the list call either raises (propagating the
exception with the context unchanged) or returns items that are extracted
and appended one by one. -/
def collectKind (key : String) (extract : α → Except String Val)
    (res : Except String (List α)) (ctx : Ctx) : Except (String × Ctx) Ctx :=
  match res with
  | Except.error e => Except.error (e, ctx)
  | Except.ok items => appendLoop key extract items ctx

/-- The context a step leaves behind, whether it completed or raised. -/
def stepOut : Except (String × Ctx) Ctx → Ctx
  | Except.ok ctx => ctx
  | Except.error p => p.2

/-- Sequencing inside the one `try` block: an exception skips every later
block. -/
def andThen (r : Except (String × Ctx) Ctx) (g : Ctx → Except (String × Ctx) Ctx) :
    Except (String × Ctx) Ctx :=
  match r with
  | Except.error p => Except.error p
  | Except.ok ctx => g ctx

/-- The Ingress block sits in its own `try: ... except Exception: pass`, so it
never propagates: whatever context the inner block left behind (completed
or aborted part-way) is carried on. -/
def collectIngresses (res : Except String (List RawIngress)) (ctx : Ctx) :
    Except (String × Ctx) Ctx :=
  Except.ok (stepOut (collectKind "ingresses" (fun i => Except.ok (extractIngress i)) res ctx))

/-- The `context = {...}` literal that opens `get_cluster_context`. -/
def initialContext (timestamp ns : String) : Ctx :=
  [("timestamp", Val.str timestamp),
   ("namespace", Val.str ns),
   ("nodes", Val.list []),
   ("pods", Val.list []),
   ("deployments", Val.list []),
   ("services", Val.list []),
   ("events", Val.list []),
   ("persistent_volumes", Val.list []),
   ("persistent_volume_claims", Val.list []),
   ("config_maps", Val.list []),
   ("secrets", Val.list []),
   ("ingresses", Val.list []),
   ("replica_sets", Val.list []),
   ("daemon_sets", Val.list []),
   ("stateful_sets", Val.list [])]

/-- The body of the outer `try` block, thirteen blocks in source order.
Events are sorted descending by creation timestamp and truncated to the
five most recent before extraction. -/
def collectAll (c : Cluster) (ctx0 : Ctx) : Except (String × Ctx) Ctx :=
  andThen (collectKind "nodes" extractNode c.nodes ctx0) fun ctx1 =>
  andThen (collectKind "pods" (fun p => Except.ok (extractPod p)) c.pods ctx1) fun ctx2 =>
  andThen (collectKind "deployments" (fun d => Except.ok (extractDeployment d))
    c.deployments ctx2) fun ctx3 =>
  andThen (collectKind "services" (fun s => Except.ok (extractService s))
    c.services ctx3) fun ctx4 =>
  andThen (collectKind "events" (fun e => Except.ok (extractEvent e))
    (c.events.map recentEvents) ctx4) fun ctx5 =>
  andThen (collectKind "persistent_volumes" (fun pv => Except.ok (extractPV pv))
    c.persistent_volumes ctx5) fun ctx6 =>
  andThen (collectKind "persistent_volume_claims" (fun pvc => Except.ok (extractPVC pvc))
    c.persistent_volume_claims ctx6) fun ctx7 =>
  andThen (collectKind "config_maps" (fun cm => Except.ok (extractConfigMap cm))
    c.config_maps ctx7) fun ctx8 =>
  andThen (collectKind "secrets" (fun s => Except.ok (extractSecret s))
    c.secrets ctx8) fun ctx9 =>
  andThen (collectIngresses c.ingresses ctx9) fun ctx10 =>
  andThen (collectKind "replica_sets" (fun rs => Except.ok (extractReplicaSet rs))
    c.replica_sets ctx10) fun ctx11 =>
  andThen (collectKind "daemon_sets" (fun ds => Except.ok (extractDaemonSet ds))
    c.daemon_sets ctx11) fun ctx12 =>
  andThen (collectKind "stateful_sets" (fun ss => Except.ok (extractStatefulSet ss))
    c.stateful_sets ctx12) fun ctx13 =>
  Except.ok ctx13

/-- `Insight.get_cluster_context`: build the initial context, run the one
`try` block, and on any exception set `context["error"] = str(e)` on the
context as it stood; the (possibly partial) context is always returned. -/
def get_cluster_context (c : Cluster) (timestamp ns : String) : Ctx :=
  match collectAll c (initialContext timestamp ns) with
  | Except.ok ctx => ctx
  | Except.error (msg, ctx) => dictSet ctx "error" (Val.str msg)

/-- The thirteen resource-kind keys, in source order. -/
def kindKeys : List String :=
  ["nodes", "pods", "deployments", "services", "events", "persistent_volumes",
   "persistent_volume_claims", "config_maps", "secrets", "ingresses",
   "replica_sets", "daemon_sets", "stateful_sets"]

/-- The fixed top-level key set of the initial context. -/
def fixedKeys : List String := ["timestamp", "namespace"] ++ kindKeys

/-! ## Preservation machinery

Every block only ever appends to its own section; these lemmas propagate
properties of the context through a block and through the whole chain,
whether the block completed or raised. -/

theorem andThen_pres (P : Ctx → Prop) (r : Except (String × Ctx) Ctx)
    (g : Ctx → Except (String × Ctx) Ctx) (h1 : P (stepOut r))
    (h2 : ∀ ctx, P ctx → P (stepOut (g ctx))) : P (stepOut (andThen r g)) := by
  cases r with
  | error p => exact h1
  | ok ctx => exact h2 ctx h1

theorem appendLoop_pres {α : Type _} (P : Ctx → Prop) (key : String)
    (f : α → Except String Val) (hP : ∀ ctx v, P ctx → P (dictAppend ctx key v)) :
    ∀ (items : List α) (ctx : Ctx), P ctx → P (stepOut (appendLoop key f items ctx)) := by
  intro items
  induction items with
  | nil => intro ctx h; exact h
  | cons a rest ih =>
    intro ctx h
    unfold appendLoop
    cases f a with
    | error e => exact h
    | ok v => exact ih (dictAppend ctx key v) (hP ctx v h)

theorem collectKind_pres {α : Type _} (P : Ctx → Prop) (key : String)
    (f : α → Except String Val) (res : Except String (List α))
    (hP : ∀ ctx v, P ctx → P (dictAppend ctx key v)) (ctx : Ctx) (h : P ctx) :
    P (stepOut (collectKind key f res ctx)) := by
  cases res with
  | error e => exact h
  | ok items => exact appendLoop_pres P key f hP items ctx h

/-- A property closed under appending to any resource-kind section survives
the whole collection pass, whether it completes or raises. -/
theorem collectAll_pres (P : Ctx → Prop)
    (hP : ∀ key, key ∈ kindKeys → ∀ ctx v, P ctx → P (dictAppend ctx key v))
    (c : Cluster) (ctx0 : Ctx) (h0 : P ctx0) : P (stepOut (collectAll c ctx0)) := by
  unfold collectAll
  apply andThen_pres
  · exact collectKind_pres P _ _ _ (hP "nodes" (by decide)) _ h0
  intro ctx1 h1
  apply andThen_pres
  · exact collectKind_pres P _ _ _ (hP "pods" (by decide)) _ h1
  intro ctx2 h2
  apply andThen_pres
  · exact collectKind_pres P _ _ _ (hP "deployments" (by decide)) _ h2
  intro ctx3 h3
  apply andThen_pres
  · exact collectKind_pres P _ _ _ (hP "services" (by decide)) _ h3
  intro ctx4 h4
  apply andThen_pres
  · exact collectKind_pres P _ _ _ (hP "events" (by decide)) _ h4
  intro ctx5 h5
  apply andThen_pres
  · exact collectKind_pres P _ _ _ (hP "persistent_volumes" (by decide)) _ h5
  intro ctx6 h6
  apply andThen_pres
  · exact collectKind_pres P _ _ _ (hP "persistent_volume_claims" (by decide)) _ h6
  intro ctx7 h7
  apply andThen_pres
  · exact collectKind_pres P _ _ _ (hP "config_maps" (by decide)) _ h7
  intro ctx8 h8
  apply andThen_pres
  · exact collectKind_pres P _ _ _ (hP "secrets" (by decide)) _ h8
  intro ctx9 h9
  apply andThen_pres
  · exact collectKind_pres P _ _ _ (hP "ingresses" (by decide)) _ h9
  intro ctx10 h10
  apply andThen_pres
  · exact collectKind_pres P _ _ _ (hP "replica_sets" (by decide)) _ h10
  intro ctx11 h11
  apply andThen_pres
  · exact collectKind_pres P _ _ _ (hP "daemon_sets" (by decide)) _ h11
  intro ctx12 h12
  apply andThen_pres
  · exact collectKind_pres P _ _ _ (hP "stateful_sets" (by decide)) _ h12
  intro ctx13 h13
  exact h13

/-! ## The shape invariant -/

/-- The context always keeps the fixed key set of the initial literal: the
keys are exactly `fixedKeys`, `timestamp` and `namespace` hold their input
values, and every resource-kind key holds a list. -/
def GoodCtx (ts ns : String) (ctx : Ctx) : Prop :=
  ctx.map Prod.fst = fixedKeys ∧
  dictGet ctx "timestamp" = some (Val.str ts) ∧
  dictGet ctx "namespace" = some (Val.str ns) ∧
  ∀ k, k ∈ kindKeys → ∃ l, dictGet ctx k = some (Val.list l)

theorem mem_kindKeys_ne {k x : String} (hk : k ∈ kindKeys) (hx : x ∉ kindKeys) :
    k ≠ x := fun hc => hx (hc ▸ hk)

theorem goodCtx_dictAppend (ts ns : String) :
    ∀ key, key ∈ kindKeys → ∀ ctx v, GoodCtx ts ns ctx → GoodCtx ts ns (dictAppend ctx key v) := by
  intro key hkey ctx v h
  obtain ⟨hfst, hts, hns, hkinds⟩ := h
  have hts2 : ("timestamp" : String) ≠ key :=
    fun hc => absurd (hc ▸ hkey) (by decide)
  have hns2 : ("namespace" : String) ≠ key :=
    fun hc => absurd (hc ▸ hkey) (by decide)
  refine ⟨?_, ?_, ?_, ?_⟩
  · rw [dictAppend_map_fst]; exact hfst
  · rw [dictGet_dictAppend_ne ctx v hts2]; exact hts
  · rw [dictGet_dictAppend_ne ctx v hns2]; exact hns
  · intro k hk
    by_cases hkk : k = key
    · subst hkk
      obtain ⟨l, hl⟩ := hkinds k hk
      exact ⟨l ++ [v], dictGet_dictAppend_self ctx v hl⟩
    · obtain ⟨l, hl⟩ := hkinds k hk
      exact ⟨l, by rw [dictGet_dictAppend_ne ctx v hkk]; exact hl⟩

theorem goodCtx_initial (ts ns : String) : GoodCtx ts ns (initialContext ts ns) := by
  refine ⟨rfl, rfl, rfl, ?_⟩
  intro k hk
  fin_cases hk <;> exact ⟨[], rfl⟩

theorem goodCtx_collect (c : Cluster) (ts ns : String) :
    GoodCtx ts ns (stepOut (collectAll c (initialContext ts ns))) :=
  collectAll_pres (GoodCtx ts ns) (goodCtx_dictAppend ts ns) c _ (goodCtx_initial ts ns)

theorem collectKind_get_ne {α : Type _} {key k : String} (h : k ≠ key)
    (f : α → Except String Val) (res : Except String (List α)) (ctx : Ctx) :
    dictGet (stepOut (collectKind key f res ctx)) k = dictGet ctx k :=
  collectKind_pres (fun c2 => dictGet c2 k = dictGet ctx k) key f res
    (fun ctx2 v hp => by
      show dictGet (dictAppend ctx2 key v) k = dictGet ctx k
      rw [dictGet_dictAppend_ne ctx2 v h]
      exact hp) ctx rfl

/-- C2.  Fixed key-set invariant: for every cluster content and failure
pattern, the snapshot returned by `get_cluster_context` has the fixed
top-level keys `timestamp`, `namespace` and one key per resource kind (with
at most an extra `error` key after a total fault); `timestamp` and
`namespace` hold the inputs, and every resource-kind key holds a sequence —
an unsupported or missing kind appears as an empty sequence, never as an
absent key; only the values vary. -/
theorem fixed_key_set_invariant (c : Cluster) (ts ns : String) :
    ((get_cluster_context c ts ns).map Prod.fst = fixedKeys ∨
      (get_cluster_context c ts ns).map Prod.fst = fixedKeys ++ ["error"]) ∧
    dictGet (get_cluster_context c ts ns) "timestamp" = some (Val.str ts) ∧
    dictGet (get_cluster_context c ts ns) "namespace" = some (Val.str ns) ∧
    ∀ k, k ∈ kindKeys → ∃ l, dictGet (get_cluster_context c ts ns) k = some (Val.list l) := by
  have hg := goodCtx_collect c ts ns
  cases hc : collectAll c (initialContext ts ns) with
  | ok ctx =>
    rw [hc] at hg
    simp only [stepOut] at hg
    simp only [get_cluster_context, hc]
    exact ⟨Or.inl hg.1, hg.2.1, hg.2.2.1, hg.2.2.2⟩
  | error p =>
    obtain ⟨msg, ctx⟩ := p
    rw [hc] at hg
    simp only [stepOut] at hg
    simp only [get_cluster_context, hc]
    obtain ⟨hfst, hts, hns, hkinds⟩ := hg
    have herr : ("error" : String) ∉ ctx.map Prod.fst := by
      rw [hfst]; decide
    refine ⟨Or.inr ?_, ?_, ?_, ?_⟩
    · rw [dictSet_map_fst_of_not_mem ctx _ herr, hfst]
    · rw [dictGet_dictSet_ne ctx _ (by decide : ("timestamp" : String) ≠ "error")]
      exact hts
    · rw [dictGet_dictSet_ne ctx _ (by decide : ("namespace" : String) ≠ "error")]
      exact hns
    · intro k hk
      obtain ⟨l, hl⟩ := hkinds k hk
      have hke : k ≠ "error" := mem_kindKeys_ne hk (by decide)
      exact ⟨l, by rw [dictGet_dictSet_ne ctx _ hke]; exact hl⟩

/-! ## Concrete example data -/

/-- An all-empty, all-succeeding cluster, the base of the concrete examples. -/
def emptyCluster : Cluster where
  nodes := Except.ok []
  pods := Except.ok []
  deployments := Except.ok []
  services := Except.ok []
  events := Except.ok []
  persistent_volumes := Except.ok []
  persistent_volume_claims := Except.ok []
  config_maps := Except.ok []
  secrets := Except.ok []
  ingresses := Except.ok []
  replica_sets := Except.ok []
  daemon_sets := Except.ok []
  stateful_sets := Except.ok []

/-- A cluster whose Nodes list call raises. -/
def cNodesFail : Cluster :=
  { emptyCluster with nodes := Except.error "connection refused" }

/-- One deployment. -/
def dWeb : RawDeployment :=
  { name := "web", replicas := some 3, ready_replicas := some 3, available_replicas := some 2 }

/-- A cluster whose Pods list call raises while Deployments would return one
deployment. -/
def cPodsFail : Cluster :=
  { emptyCluster with pods := Except.error "(403) Reason: Forbidden",
                      deployments := Except.ok [dWeb] }

/-- `cPodsFail` with the Pods call succeeding instead. -/
def cPodsOk : Cluster := { cPodsFail with pods := Except.ok [] }

/-! ## C3: total-fault behaviour -/

/-- C3.  Total-fault behaviour: `get_cluster_context` is a total function of
the modelled inputs (every fault is a value, so it never raises to its
caller); whenever the collection pass raises with message `msg` leaving the
context at `ctx`, the returned snapshot is exactly that context with the
top-level `error` key set to the fault's message, and every other key keeps
the value it had when the fault occurred — sections populated before the
fault are retained unchanged. -/
theorem total_fault_returns_error_snapshot (c : Cluster) (ts ns msg : String) (ctx : Ctx)
    (h : collectAll c (initialContext ts ns) = Except.error (msg, ctx)) :
    dictGet (get_cluster_context c ts ns) "error" = some (Val.str msg) ∧
    ∀ k, k ≠ "error" → dictGet (get_cluster_context c ts ns) k = dictGet ctx k := by
  simp only [get_cluster_context, h]
  exact ⟨dictGet_dictSet_self ctx "error" (Val.str msg),
    fun k hk => dictGet_dictSet_ne ctx (Val.str msg) hk⟩

/-- C3, at a concrete input: the Nodes call raising "connection refused"
yields a snapshot with `error` set and the other keys as initialized. -/
theorem total_fault_returns_error_snapshot_witness :
    dictGet (get_cluster_context cNodesFail "t0" "default") "error"
      = some (Val.str "connection refused") ∧
    dictGet (get_cluster_context cNodesFail "t0" "default") "pods"
      = dictGet (initialContext "t0" "default") "pods" :=
  ⟨(total_fault_returns_error_snapshot cNodesFail "t0" "default" "connection refused"
      (initialContext "t0" "default") rfl).1,
   (total_fault_returns_error_snapshot cNodesFail "t0" "default" "connection refused"
      (initialContext "t0" "default") rfl).2 "pods" (by decide)⟩

/-! ## C1: no per-kind fault isolation -/

/-- C1 (amended).  The collection pass has a single fault boundary (apart from
Ingress): if the Pods list call raises after the Nodes block completed, no
`pods_error` key is recorded; instead the whole pass aborts — the snapshot is
the context as the Nodes block left it with the top-level `error` key set to
the fault's message, and every resource-kind section other than `nodes`
(pods itself, and every kind listed after pods) remains an empty sequence
rather than being populated as if Pods had succeeded. -/
theorem pods_fault_aborts_collection (c : Cluster) (ts ns msg : String) (ctx1 : Ctx)
    (hn : collectKind "nodes" extractNode c.nodes (initialContext ts ns) = Except.ok ctx1)
    (hp : c.pods = Except.error msg) :
    get_cluster_context c ts ns = dictSet ctx1 "error" (Val.str msg) ∧
    dictGet (get_cluster_context c ts ns) "error" = some (Val.str msg) ∧
    dictGet (get_cluster_context c ts ns) "pods_error" = none ∧
    ∀ k, k ∈ kindKeys → k ≠ "nodes" →
      dictGet (get_cluster_context c ts ns) k = some (Val.list []) := by
  have hca : collectAll c (initialContext ts ns) = Except.error (msg, ctx1) := by
    unfold collectAll
    rw [hn]
    simp only [andThen, hp, collectKind]
  have hres : get_cluster_context c ts ns = dictSet ctx1 "error" (Val.str msg) := by
    simp only [get_cluster_context, hca]
  have hg : GoodCtx ts ns ctx1 := by
    have hpres := collectKind_pres (GoodCtx ts ns) "nodes" extractNode c.nodes
      (goodCtx_dictAppend ts ns "nodes" (by decide)) (initialContext ts ns)
      (goodCtx_initial ts ns)
    rw [hn] at hpres
    exact hpres
  refine ⟨hres, ?_, ?_, ?_⟩
  · rw [hres]
    exact dictGet_dictSet_self ctx1 "error" (Val.str msg)
  · rw [hres]
    apply dictGet_eq_none_of_not_mem
    rw [dictSet_map_fst_of_not_mem ctx1 _ (by rw [hg.1]; decide), hg.1]
    decide
  · intro k hk hkn
    rw [hres, dictGet_dictSet_ne ctx1 _ (mem_kindKeys_ne hk (by decide))]
    have hsec : dictGet ctx1 k = dictGet (initialContext ts ns) k := by
      have hne := collectKind_get_ne hkn extractNode c.nodes (initialContext ts ns)
      rw [hn] at hne
      exact hne
    rw [hsec]
    fin_cases hk
    · exact absurd rfl hkn
    all_goals rfl

/-- C1 (counterexample).  With the Pods list call raising and one deployment
present in the cluster, the snapshot records no `pods_error` key and leaves
`deployments` empty — not populated as if Pods had succeeded, as the same
cluster with a succeeding Pods call shows. -/
theorem per_kind_isolation_counterexample :
    dictGet (get_cluster_context cPodsFail "t0" "default") "pods_error" = none ∧
    dictGet (get_cluster_context cPodsFail "t0" "default") "deployments"
      = some (Val.list []) ∧
    dictGet (get_cluster_context cPodsOk "t0" "default") "deployments"
      = some (Val.list [extractDeployment dWeb]) :=
  ⟨rfl, rfl, rfl⟩

/-- C1 (amended), at a concrete input. -/
theorem pods_fault_aborts_collection_witness :
    dictGet (get_cluster_context cPodsFail "t0" "default") "error"
      = some (Val.str "(403) Reason: Forbidden") ∧
    dictGet (get_cluster_context cPodsFail "t0" "default") "services"
      = some (Val.list []) :=
  ⟨(pods_fault_aborts_collection cPodsFail "t0" "default" "(403) Reason: Forbidden"
      (initialContext "t0" "default") rfl rfl).2.1,
   (pods_fault_aborts_collection cPodsFail "t0" "default" "(403) Reason: Forbidden"
      (initialContext "t0" "default") rfl rfl).2.2.2 "services" (by decide) (by decide)⟩

/-! ## C6: Ingress independence -/

theorem collectIngresses_error (e : String) (ctx : Ctx) :
    collectIngresses (Except.error e) ctx = Except.ok ctx := rfl

theorem collectIngresses_empty (ctx : Ctx) :
    collectIngresses (Except.ok []) ctx = Except.ok ctx := rfl

theorem collectAll_get_ingresses_of_error (c : Cluster) (e : String)
    (hi : c.ingresses = Except.error e) (ctx0 : Ctx) :
    dictGet (stepOut (collectAll c ctx0)) "ingresses" = dictGet ctx0 "ingresses" := by
  unfold collectAll
  apply andThen_pres (fun ctx => dictGet ctx "ingresses" = dictGet ctx0 "ingresses")
  · exact collectKind_get_ne (by decide) _ _ _
  intro ctx1 h1
  apply andThen_pres (fun ctx => dictGet ctx "ingresses" = dictGet ctx0 "ingresses")
  · rw [collectKind_get_ne (by decide : ("ingresses" : String) ≠ "pods")]
    exact h1
  intro ctx2 h2
  apply andThen_pres (fun ctx => dictGet ctx "ingresses" = dictGet ctx0 "ingresses")
  · rw [collectKind_get_ne (by decide : ("ingresses" : String) ≠ "deployments")]
    exact h2
  intro ctx3 h3
  apply andThen_pres (fun ctx => dictGet ctx "ingresses" = dictGet ctx0 "ingresses")
  · rw [collectKind_get_ne (by decide : ("ingresses" : String) ≠ "services")]
    exact h3
  intro ctx4 h4
  apply andThen_pres (fun ctx => dictGet ctx "ingresses" = dictGet ctx0 "ingresses")
  · rw [collectKind_get_ne (by decide : ("ingresses" : String) ≠ "events")]
    exact h4
  intro ctx5 h5
  apply andThen_pres (fun ctx => dictGet ctx "ingresses" = dictGet ctx0 "ingresses")
  · rw [collectKind_get_ne (by decide : ("ingresses" : String) ≠ "persistent_volumes")]
    exact h5
  intro ctx6 h6
  apply andThen_pres (fun ctx => dictGet ctx "ingresses" = dictGet ctx0 "ingresses")
  · rw [collectKind_get_ne (by decide : ("ingresses" : String) ≠ "persistent_volume_claims")]
    exact h6
  intro ctx7 h7
  apply andThen_pres (fun ctx => dictGet ctx "ingresses" = dictGet ctx0 "ingresses")
  · rw [collectKind_get_ne (by decide : ("ingresses" : String) ≠ "config_maps")]
    exact h7
  intro ctx8 h8
  apply andThen_pres (fun ctx => dictGet ctx "ingresses" = dictGet ctx0 "ingresses")
  · rw [collectKind_get_ne (by decide : ("ingresses" : String) ≠ "secrets")]
    exact h8
  intro ctx9 h9
  apply andThen_pres (fun ctx => dictGet ctx "ingresses" = dictGet ctx0 "ingresses")
  · rw [hi, collectIngresses_error]
    exact h9
  intro ctx10 h10
  apply andThen_pres (fun ctx => dictGet ctx "ingresses" = dictGet ctx0 "ingresses")
  · rw [collectKind_get_ne (by decide : ("ingresses" : String) ≠ "replica_sets")]
    exact h10
  intro ctx11 h11
  apply andThen_pres (fun ctx => dictGet ctx "ingresses" = dictGet ctx0 "ingresses")
  · rw [collectKind_get_ne (by decide : ("ingresses" : String) ≠ "daemon_sets")]
    exact h11
  intro ctx12 h12
  apply andThen_pres (fun ctx => dictGet ctx "ingresses" = dictGet ctx0 "ingresses")
  · rw [collectKind_get_ne (by decide : ("ingresses" : String) ≠ "stateful_sets")]
    exact h12
  intro ctx13 h13
  exact h13

/-- C6.  Ingress independence: if the Ingress list call raises (e.g. the
networking API group is absent), the snapshot is identical to the one the
same cluster produces with an Ingress call returning no items — so no error
is recorded for it and no other resource-kind section is affected in any
way — and the `ingresses` section is an empty sequence. -/
theorem ingress_unavailable_independent (c : Cluster) (e ts ns : String) :
    get_cluster_context { c with ingresses := Except.error e } ts ns
      = get_cluster_context { c with ingresses := Except.ok [] } ts ns ∧
    dictGet (get_cluster_context { c with ingresses := Except.error e } ts ns) "ingresses"
      = some (Val.list []) := by
  constructor
  · rfl
  · have hall := collectAll_get_ingresses_of_error { c with ingresses := Except.error e } e
      rfl (initialContext ts ns)
    cases hc : collectAll { c with ingresses := Except.error e } (initialContext ts ns) with
    | ok ctx =>
      rw [hc] at hall
      simp only [stepOut] at hall
      simp only [get_cluster_context, hc]
      rw [hall]
      rfl
    | error pr =>
      obtain ⟨msg, ctx⟩ := pr
      rw [hc] at hall
      simp only [stepOut] at hall
      simp only [get_cluster_context, hc]
      rw [dictGet_dictSet_ne ctx _ (by decide : ("ingresses" : String) ≠ "error")]
      rw [hall]
      rfl

/-! ## C5: events selection and ordering -/

theorem appendLoop_ok_get {α : Type _} (key : String) (g : α → Val) :
    ∀ (items : List α) (ctx : Ctx) (l : List Val),
      dictGet ctx key = some (Val.list l) →
      ∃ ctx2, appendLoop key (fun a => Except.ok (g a)) items ctx = Except.ok ctx2 ∧
        dictGet ctx2 key = some (Val.list (l ++ items.map g)) := by
  intro items
  induction items with
  | nil =>
    intro ctx l h
    exact ⟨ctx, rfl, by simpa using h⟩
  | cons a rest ih =>
    intro ctx l h
    obtain ⟨ctx2, h1, h2⟩ := ih (dictAppend ctx key (g a)) (l ++ [g a])
      (dictGet_dictAppend_self ctx (g a) h)
    refine ⟨ctx2, ?_, ?_⟩
    · exact h1
    · simpa using h2

/-- C5.  Events selection and ordering: the collected `recentEvents` are a
prefix of length `min 5 evs.length` of a descending reordering of the raw
event list — the rest of that reordering is exactly what is dropped, so the
section holds the 5 most recent events (all of them when fewer than 5
exist) in descending creation-timestamp order; an event with a null
creation timestamp gets the least possible key and so sorts last/oldest;
each entry is the compact record with `type`, `reason`, `message` and
`object = "<InvolvedKind>/<InvolvedName>"`; and the events block of the
aggregator appends exactly the extracted records of `recentEvents` to the
snapshot's `events` section. -/
theorem events_five_most_recent (evs : List RawEvent) :
    (recentEvents evs ++ (sortEventsDesc evs).drop 5).Perm evs ∧
    (recentEvents evs ++ (sortEventsDesc evs).drop 5).Pairwise eventGE ∧
    (recentEvents evs).length = min 5 evs.length ∧
    (∀ e, e.creation_timestamp = none → ∀ e2, eventKey e ≤ eventKey e2) ∧
    (∀ e, extractEvent e = Val.dict
      [("type", optStrVal e.type), ("reason", optStrVal e.reason),
       ("message", optStrVal e.message),
       ("object", Val.str (e.involved_object.kind ++ "/" ++ e.involved_object.name))]) ∧
    (∀ ctx l, dictGet ctx "events" = some (Val.list l) →
      ∃ ctx2, collectKind "events" (fun e => Except.ok (extractEvent e))
          (Except.map recentEvents (Except.ok evs)) ctx = Except.ok ctx2 ∧
        dictGet ctx2 "events" = some (Val.list (l ++ (recentEvents evs).map extractEvent))) := by
  have hsplit : recentEvents evs ++ (sortEventsDesc evs).drop 5 = sortEventsDesc evs :=
    List.take_append_drop 5 (sortEventsDesc evs)
  refine ⟨?_, ?_, ?_, ?_, ?_, ?_⟩
  · rw [hsplit]
    exact List.perm_insertionSort eventGE evs
  · rw [hsplit]
    exact List.sorted_insertionSort eventGE evs
  · have hlen : (sortEventsDesc evs).length = evs.length :=
      (List.perm_insertionSort eventGE evs).length_eq
    show ((sortEventsDesc evs).take 5).length = min 5 evs.length
    rw [List.length_take, hlen]
  · intro e he e2
    simp [eventKey, he]
  · intro e
    rfl
  · intro ctx l h
    exact appendLoop_ok_get "events" extractEvent (recentEvents evs) ctx l h

/-- One event with creation timestamp `n`. -/
def evAt (n : Nat) : RawEvent :=
  { type := some "Normal", reason := some "Started", message := some "ok",
    involved_object := { kind := "Pod", name := "p" }, creation_timestamp := some n }

/-- One event with a null creation timestamp. -/
def evNull : RawEvent :=
  { type := some "Warning", reason := some "Failed", message := some "bad",
    involved_object := { kind := "Pod", name := "q" }, creation_timestamp := none }

/-- C5, at concrete inputs: of 7 events with distinct timestamps exactly the
5 most recent survive, in descending order; a null-timestamp event sorts as
the oldest. -/
theorem events_five_most_recent_witness :
    (recentEvents [evAt 3, evAt 7, evAt 1, evAt 6, evAt 5, evAt 2, evAt 4]).length = 5 ∧
    recentEvents [evAt 3, evAt 7, evAt 1, evAt 6, evAt 5, evAt 2, evAt 4]
      = [evAt 7, evAt 6, evAt 5, evAt 4, evAt 3] ∧
    recentEvents [evNull, evAt 2, evAt 1] = [evAt 2, evAt 1, evNull] :=
  ⟨(events_five_most_recent [evAt 3, evAt 7, evAt 1, evAt 6, evAt 5, evAt 2, evAt 4]).2.2.1,
   rfl, rfl⟩

/-! ## C7: pod container counts -/

/-- C7.  Pod container counts: in every extracted pod record, `ready` is the
number of container statuses reporting ready (0 when `container_statuses`
is absent), `total_containers` is the number of containers declared in the
pod spec, and `restart_count` is the sum of the restart counts over all
container statuses (0 when absent). -/
theorem pod_container_counts (p : RawPod) :
    dictGet (podFields p) "ready"
      = some (Val.nat ((p.status.container_statuses.getD []).countP fun c => c.ready)) ∧
    dictGet (podFields p) "total_containers" = some (Val.nat p.spec.containers.length) ∧
    dictGet (podFields p) "restart_count"
      = some (Val.nat (((p.status.container_statuses.getD []).map fun c =>
          c.restart_count).sum)) ∧
    (p.status.container_statuses = none →
      dictGet (podFields p) "ready" = some (Val.nat 0) ∧
      dictGet (podFields p) "restart_count" = some (Val.nat 0)) := by
  refine ⟨?_, rfl, rfl, ?_⟩
  · have hc : ((p.status.container_statuses.getD []).countP fun c => c.ready)
        = ((p.status.container_statuses.getD []).filter fun c => c.ready).length :=
      List.countP_eq_length_filter _ _
    rw [hc]
    rfl
  · intro h
    simp only [podFields, h]
    exact ⟨rfl, rfl⟩

/-- A container status that reports ready, with `r` restarts. -/
def csReady (nm : String) (r : Nat) : RawContainerStatus :=
  { name := nm, ready := true, restart_count := r,
    state := { running := some { started_at := some 11 }, waiting := none, terminated := none },
    last_state := none }

/-- A container status that reports not ready. -/
def csNotReady (nm : String) : RawContainerStatus :=
  { name := nm, ready := false, restart_count := 4,
    state := { running := none, waiting := none, terminated := none },
    last_state := none }

/-- A container declaration carrying only a name and image. -/
def containerNamed (nm : String) : RawContainer :=
  { name := nm, image := "img:latest", ports := none, resources := none,
    env := none, volume_mounts := none }

/-- A pod with 3 declared containers of which exactly 2 report ready. -/
def podThreeTwo : RawPod :=
  { metadata := { name := "p1", creation_timestamp := some 5, labels := none,
                  annotations := none },
    spec := { containers := [containerNamed "a", containerNamed "b", containerNamed "c"],
              volumes := none, node_name := some "n1", service_account_name := none,
              restart_policy := some "Always", dns_policy := none },
    status := { phase := some "Running",
                container_statuses := some [csReady "a" 1, csNotReady "b", csReady "c" 2],
                conditions := none, pod_ip := some "10.0.0.1", host_ip := none,
                qos_class := none } }

/-- C7, at a concrete input: 3 containers, 2 ready, restarts 1 + 4 + 2. -/
theorem pod_container_counts_witness :
    dictGet (podFields podThreeTwo) "ready" = some (Val.nat 2) ∧
    dictGet (podFields podThreeTwo) "total_containers" = some (Val.nat 3) ∧
    dictGet (podFields podThreeTwo) "restart_count" = some (Val.nat 7) :=
  ⟨(pod_container_counts podThreeTwo).1, (pod_container_counts podThreeTwo).2.1,
   (pod_container_counts podThreeTwo).2.2.1⟩

/-! ## C8: ReplicaSet owner extraction -/

/-- C8.  ReplicaSet owner extraction: the record's `owner` is null when the
owner-reference list is absent or empty, and the first owner reference's
name whenever the list is non-empty (whatever follows it). -/
theorem replicaset_owner_first_or_null (rs : RawReplicaSet) :
    ((rs.owner_references = none ∨ rs.owner_references = some []) →
      dictGet (rsFields rs) "owner" = some Val.null) ∧
    ∀ r rest, rs.owner_references = some (r :: rest) →
      dictGet (rsFields rs) "owner" = some (Val.str r.name) := by
  constructor
  · intro h
    rcases h with h | h <;> simp [rsFields, dictGet, h]
  · intro r rest h
    simp [rsFields, dictGet, h]

/-- A ReplicaSet with two owner references. -/
def rsTwoOwners : RawReplicaSet :=
  { name := "rs-1", replicas := some 2, ready_replicas := some 2,
    available_replicas := some 2,
    owner_references := some [{ name := "deploy-a" }, { name := "deploy-b" }] }

/-- A ReplicaSet with no owner references. -/
def rsNoOwner : RawReplicaSet :=
  { name := "rs-0", replicas := some 1, ready_replicas := none,
    available_replicas := none, owner_references := none }

/-- C8, at concrete inputs: two owner references yield the first one's name,
zero yield null. -/
theorem replicaset_owner_first_or_null_witness :
    dictGet (rsFields rsTwoOwners) "owner" = some (Val.str "deploy-a") ∧
    dictGet (rsFields rsNoOwner) "owner" = some Val.null :=
  ⟨(replicaset_owner_first_or_null rsTwoOwners).2 { name := "deploy-a" }
      [{ name := "deploy-b" }] rfl,
   (replicaset_owner_first_or_null rsNoOwner).1 (Or.inl rfl)⟩

/-! ## C10: pod volume type discrimination -/

/-- C10.  Pod volume type discrimination is prioritized and closed: the
volume record's `type` is decided by testing the sources in the fixed order
configMap, secret, persistentVolumeClaim, emptyDir, hostPath, taking the
first one present even when later ones are set too, and attaching the
matching name field (emptyDir adds none); a volume with none of the five
sources yields only the `name` and `type = "unknown"` keys. -/
theorem volume_type_discrimination (v : RawVolume) :
    (∀ cm, v.config_map = some cm →
      volFields v = [("name", Val.str v.name), ("type", Val.str "configMap"),
                     ("config_map_name", Val.str cm.name)]) ∧
    (∀ s, v.config_map = none → v.secret = some s →
      volFields v = [("name", Val.str v.name), ("type", Val.str "secret"),
                     ("secret_name", Val.str s.secret_name)]) ∧
    (∀ pvc, v.config_map = none → v.secret = none →
      v.persistent_volume_claim = some pvc →
      volFields v = [("name", Val.str v.name), ("type", Val.str "persistentVolumeClaim"),
                     ("pvc_name", Val.str pvc.claim_name)]) ∧
    (∀ u, v.config_map = none → v.secret = none → v.persistent_volume_claim = none →
      v.empty_dir = some u →
      volFields v = [("name", Val.str v.name), ("type", Val.str "emptyDir")]) ∧
    (∀ hp, v.config_map = none → v.secret = none → v.persistent_volume_claim = none →
      v.empty_dir = none → v.host_path = some hp →
      volFields v = [("name", Val.str v.name), ("type", Val.str "hostPath"),
                     ("host_path", Val.str hp.path)]) ∧
    (v.config_map = none → v.secret = none → v.persistent_volume_claim = none →
      v.empty_dir = none → v.host_path = none →
      volFields v = [("name", Val.str v.name), ("type", Val.str "unknown")]) := by
  refine ⟨?_, ?_, ?_, ?_, ?_, ?_⟩
  · intro cm h1
    simp [volFields, h1]
  · intro s h1 h2
    simp [volFields, h1, h2]
  · intro pvc h1 h2 h3
    simp [volFields, h1, h2, h3]
  · intro u h1 h2 h3 h4
    simp [volFields, h1, h2, h3, h4]
  · intro hp h1 h2 h3 h4 h5
    simp [volFields, h1, h2, h3, h4, h5]
  · intro h1 h2 h3 h4 h5
    simp [volFields, h1, h2, h3, h4, h5]

/-- A volume with both a configMap and a secret source set. -/
def volBoth : RawVolume :=
  { name := "v1", config_map := some { name := "cm1" },
    secret := some { secret_name := "sec1" }, persistent_volume_claim := none,
    empty_dir := none, host_path := none }

/-- A volume with none of the five sources set. -/
def volPlain : RawVolume :=
  { name := "v2", config_map := none, secret := none,
    persistent_volume_claim := none, empty_dir := none, host_path := none }

/-- C10, at concrete inputs: with configMap and secret both set the configMap
wins; with no source the record is just name and type "unknown". -/
theorem volume_type_discrimination_witness :
    volFields volBoth = [("name", Val.str "v1"), ("type", Val.str "configMap"),
                         ("config_map_name", Val.str "cm1")] ∧
    volFields volPlain = [("name", Val.str "v2"), ("type", Val.str "unknown")] :=
  ⟨(volume_type_discrimination volBoth).1 { name := "cm1" } rfl,
   (volume_type_discrimination volPlain).2.2.2.2.2 rfl rfl rfl rfl rfl⟩

/-! ## C4: optional-field robustness -/

/-- A node whose `status.conditions` attribute is absent. -/
def nodeNoConds : RawNode :=
  { name := "node-1", conditions := none,
    capacity := some [("cpu", "4"), ("memory", "16Gi")] }

/-- A cluster whose Nodes call returns that node. -/
def cNodeNoConds : Cluster := { emptyCluster with nodes := Except.ok [nodeNoConds] }

/-- C4 (counterexample).  A Node whose `status.conditions` is absent does not
yield a record with default-empty fields: node extraction iterates the
absent attribute and raises, and under the single fault boundary the whole
remaining collection is abandoned — the snapshot carries a top-level
`error` and an empty `nodes` section instead of the full record. -/
theorem optional_field_node_counterexample :
    extractNode nodeNoConds
      = Except.error "TypeError: NoneType object is not iterable" ∧
    dictGet (get_cluster_context cNodeNoConds "t0" "default") "error"
      = some (Val.str "TypeError: NoneType object is not iterable") ∧
    dictGet (get_cluster_context cNodeNoConds "t0" "default") "nodes"
      = some (Val.list []) :=
  ⟨rfl, rfl, rfl⟩

/-- C4 (amended).  Optional-field robustness holds for pod extraction, which
is total: a pod record always carries the full fixed key list, and an
absent `container_statuses`, `labels`, `annotations`, `volumes` or
`conditions` attribute is read as default-empty (0 for the counts, empty
sequence or mapping) without aborting extraction of the rest of the
record.  Node extraction, by contrast, only succeeds when both
`status.conditions` and `status.capacity` are present (an absent
`conditions` aborts it — see the counterexample). -/
theorem optional_fields_default_to_empty (p : RawPod) (n : RawNode) :
    (podFields p).map Prod.fst
      = ["name", "status", "ready", "total_containers", "restart_count", "node",
         "created", "labels", "annotations", "service_account", "restart_policy",
         "dns_policy", "pod_ip", "host_ip", "qos_class", "containers",
         "container_statuses", "conditions", "volumes"] ∧
    (p.status.container_statuses = none →
      dictGet (podFields p) "ready" = some (Val.nat 0) ∧
      dictGet (podFields p) "restart_count" = some (Val.nat 0) ∧
      dictGet (podFields p) "container_statuses" = some (Val.list [])) ∧
    (p.metadata.labels = none → dictGet (podFields p) "labels" = some (Val.dict [])) ∧
    (p.metadata.annotations = none →
      dictGet (podFields p) "annotations" = some (Val.dict [])) ∧
    (p.spec.volumes = none → dictGet (podFields p) "volumes" = some (Val.list [])) ∧
    (p.status.conditions = none →
      dictGet (podFields p) "conditions" = some (Val.list [])) ∧
    (∀ conds cap, n.conditions = some conds → n.capacity = some cap →
      ∃ rec, extractNode n = Except.ok rec) := by
  refine ⟨rfl, ?_, ?_, ?_, ?_, ?_, ?_⟩
  · intro h
    simp only [podFields, h]
    exact ⟨rfl, rfl, rfl⟩
  · intro h
    simp only [podFields, h]
    rfl
  · intro h
    simp only [podFields, h]
    rfl
  · intro h
    simp only [podFields, h]
    rfl
  · intro h
    simp only [podFields, h]
    rfl
  · intro conds cap h1 h2
    refine ⟨Val.dict
      [("name", Val.str n.name),
       ("status", Val.str (if conds.any fun c => c.type == "Ready" && c.status == "True"
                           then "Ready" else "NotReady")),
       ("cpu_capacity", optStrVal (pyDictGet cap "cpu")),
       ("memory_capacity", optStrVal (pyDictGet cap "memory")),
       ("conditions", Val.list (conds.map fun c =>
          Val.dict [("type", Val.str c.type), ("status", Val.str c.status)]))], ?_⟩
    simp [extractNode, h1, h2]

/-- A pod with every optional attribute absent. -/
def podBare : RawPod :=
  { metadata := { name := "p0", creation_timestamp := none, labels := none,
                  annotations := none },
    spec := { containers := [], volumes := none, node_name := none,
              service_account_name := none, restart_policy := none, dns_policy := none },
    status := { phase := none, container_statuses := none, conditions := none,
                pod_ip := none, host_ip := none, qos_class := none } }

/-- A node with conditions and capacity present. -/
def nodeFull : RawNode :=
  { name := "node-2", conditions := some [{ type := "Ready", status := "True" }],
    capacity := some [("cpu", "4")] }

/-- C4 (amended), at concrete inputs. -/
theorem optional_fields_default_to_empty_witness :
    dictGet (podFields podBare) "ready" = some (Val.nat 0) ∧
    dictGet (podFields podBare) "labels" = some (Val.dict []) ∧
    dictGet (podFields podBare) "volumes" = some (Val.list []) ∧
    ∃ rec, extractNode nodeFull = Except.ok rec :=
  ⟨((optional_fields_default_to_empty podBare nodeFull).2.1 rfl).1,
   (optional_fields_default_to_empty podBare nodeFull).2.2.1 rfl,
   (optional_fields_default_to_empty podBare nodeFull).2.2.2.2.1 rfl,
   (optional_fields_default_to_empty podBare nodeFull).2.2.2.2.2.2 _ _ rfl rfl⟩

/-! ## C9: Secret/ConfigMap value confidentiality -/

/-- Two config maps that differ at most in their data and binary-data
values: same name and same key lists. -/
def cmLowEq (a b : RawConfigMap) : Prop :=
  a.name = b.name ∧ pyKeys a.data = pyKeys b.data ∧
    pyKeys a.binary_data = pyKeys b.binary_data

/-- Two secrets that differ at most in their data values: same name, type
and key list. -/
def secretLowEq (a b : RawSecret) : Prop :=
  a.name = b.name ∧ a.type = b.type ∧ pyKeys a.data = pyKeys b.data

/-- Two ConfigMaps list-call outcomes that differ at most in stored values:
both raise the same fault, or both return lists of pairwise low-equal maps. -/
def cmResRel : Except String (List RawConfigMap) → Except String (List RawConfigMap) → Prop
  | Except.error e1, Except.error e2 => e1 = e2
  | Except.ok l1, Except.ok l2 => List.Forall₂ cmLowEq l1 l2
  | _, _ => False

/-- Two Secrets list-call outcomes that differ at most in stored values. -/
def secretResRel : Except String (List RawSecret) → Except String (List RawSecret) → Prop
  | Except.error e1, Except.error e2 => e1 = e2
  | Except.ok l1, Except.ok l2 => List.Forall₂ secretLowEq l1 l2
  | _, _ => False

theorem extractConfigMap_eq_of_lowEq {a b : RawConfigMap} (h : cmLowEq a b) :
    extractConfigMap a = extractConfigMap b := by
  obtain ⟨h1, h2, h3⟩ := h
  simp [extractConfigMap, h1, h2, h3]

theorem extractSecret_eq_of_lowEq {a b : RawSecret} (h : secretLowEq a b) :
    extractSecret a = extractSecret b := by
  obtain ⟨h1, h2, h3⟩ := h
  simp [extractSecret, h1, h2, h3]

theorem appendLoop_map_eq {α : Type _} (key : String) (f : α → Val) :
    ∀ (l1 l2 : List α), l1.map f = l2.map f → ∀ ctx,
      appendLoop key (fun a => Except.ok (f a)) l1 ctx
        = appendLoop key (fun a => Except.ok (f a)) l2 ctx := by
  intro l1
  induction l1 with
  | nil =>
    intro l2 h ctx
    cases l2 with
    | nil => rfl
    | cons b bs => simp at h
  | cons a as ih =>
    intro l2 h ctx
    cases l2 with
    | nil => simp at h
    | cons b bs =>
      simp only [List.map_cons, List.cons.injEq] at h
      show appendLoop key (fun a => Except.ok (f a)) as (dictAppend ctx key (f a))
        = appendLoop key (fun a => Except.ok (f a)) bs (dictAppend ctx key (f b))
      rw [h.1]
      exact ih bs h.2 (dictAppend ctx key (f b))

theorem forall₂_map_eq {α : Type _} {R : α → α → Prop} {f : α → Val}
    (hf : ∀ {a b}, R a b → f a = f b) :
    ∀ {l1 l2 : List α}, List.Forall₂ R l1 l2 → l1.map f = l2.map f := by
  intro l1 l2 h
  induction h with
  | nil => rfl
  | cons hab _ ih => simp [hf hab, ih]

/-- C9.  Secret/ConfigMap value confidentiality (noninterference): the
snapshot depends on Secret and ConfigMap data only through the key lists —
for any two clusters that agree on every other resource kind and whose
Secrets and ConfigMaps differ only in their data/binary-data values (same
names, types and key lists), `get_cluster_context` returns identical
snapshots (the `timestamp` field is the shared input, so "modulo timestamp"
holds by instantiating both runs at the same timestamp). -/
theorem secret_values_noninterference (c1 c2 : Cluster) (ts ns : String)
    (hn : c1.nodes = c2.nodes) (hp : c1.pods = c2.pods)
    (hd : c1.deployments = c2.deployments) (hs : c1.services = c2.services)
    (he : c1.events = c2.events) (hpv : c1.persistent_volumes = c2.persistent_volumes)
    (hpvc : c1.persistent_volume_claims = c2.persistent_volume_claims)
    (hcm : cmResRel c1.config_maps c2.config_maps)
    (hsec : secretResRel c1.secrets c2.secrets)
    (hi : c1.ingresses = c2.ingresses) (hrs : c1.replica_sets = c2.replica_sets)
    (hds : c1.daemon_sets = c2.daemon_sets) (hss : c1.stateful_sets = c2.stateful_sets) :
    get_cluster_context c1 ts ns = get_cluster_context c2 ts ns := by
  have hstep_cm : ∀ ctx,
      collectKind "config_maps" (fun cm => Except.ok (extractConfigMap cm))
        c1.config_maps ctx
      = collectKind "config_maps" (fun cm => Except.ok (extractConfigMap cm))
        c2.config_maps ctx := by
    intro ctx
    cases h1 : c1.config_maps with
    | error e1 =>
      cases h2 : c2.config_maps with
      | error e2 =>
        rw [h1, h2] at hcm
        simp only [cmResRel] at hcm
        rw [hcm]
      | ok l2 =>
        rw [h1, h2] at hcm
        simp only [cmResRel] at hcm
    | ok l1 =>
      cases h2 : c2.config_maps with
      | error e2 =>
        rw [h1, h2] at hcm
        simp only [cmResRel] at hcm
      | ok l2 =>
        rw [h1, h2] at hcm
        simp only [cmResRel] at hcm
        show appendLoop "config_maps" _ l1 ctx = appendLoop "config_maps" _ l2 ctx
        exact appendLoop_map_eq "config_maps" extractConfigMap l1 l2
          (forall₂_map_eq (fun hab => extractConfigMap_eq_of_lowEq hab) hcm) ctx
  have hstep_sec : ∀ ctx,
      collectKind "secrets" (fun s => Except.ok (extractSecret s)) c1.secrets ctx
      = collectKind "secrets" (fun s => Except.ok (extractSecret s)) c2.secrets ctx := by
    intro ctx
    cases h1 : c1.secrets with
    | error e1 =>
      cases h2 : c2.secrets with
      | error e2 =>
        rw [h1, h2] at hsec
        simp only [secretResRel] at hsec
        rw [hsec]
      | ok l2 =>
        rw [h1, h2] at hsec
        simp only [secretResRel] at hsec
    | ok l1 =>
      cases h2 : c2.secrets with
      | error e2 =>
        rw [h1, h2] at hsec
        simp only [secretResRel] at hsec
      | ok l2 =>
        rw [h1, h2] at hsec
        simp only [secretResRel] at hsec
        show appendLoop "secrets" _ l1 ctx = appendLoop "secrets" _ l2 ctx
        exact appendLoop_map_eq "secrets" extractSecret l1 l2
          (forall₂_map_eq (fun hab => extractSecret_eq_of_lowEq hab) hsec) ctx
  have hfun_cm := funext hstep_cm
  have hfun_sec := funext hstep_sec
  suffices h : collectAll c1 (initialContext ts ns) = collectAll c2 (initialContext ts ns) by
    simp only [get_cluster_context, h]
  unfold collectAll
  simp only [hn, hp, hd, hs, he, hpv, hpvc, hi, hrs, hds, hss, hfun_cm, hfun_sec]

/-- A secret whose one data value is "aaaa". -/
def secretA : RawSecret :=
  { name := "db-credentials", type := some "Opaque", data := some [("password", "aaaa")] }

/-- The same secret with value "bbbb". -/
def secretB : RawSecret :=
  { name := "db-credentials", type := some "Opaque", data := some [("password", "bbbb")] }

/-- A cluster holding `secretA`. -/
def cSecretA : Cluster := { emptyCluster with secrets := Except.ok [secretA] }

/-- A cluster holding `secretB` instead. -/
def cSecretB : Cluster := { emptyCluster with secrets := Except.ok [secretB] }

/-- C9, at concrete inputs: two clusters whose only difference is a secret's
stored value produce identical snapshots. -/
theorem secret_values_noninterference_witness :
    get_cluster_context cSecretA "t0" "default"
      = get_cluster_context cSecretB "t0" "default" :=
  secret_values_noninterference cSecretA cSecretB "t0" "default" rfl rfl rfl rfl rfl rfl rfl
    List.Forall₂.nil
    (List.Forall₂.cons ⟨rfl, rfl, rfl⟩ List.Forall₂.nil)
    rfl rfl rfl rfl
